import Mathlib

set_option maxHeartbeats 1000000

/-!
Shallow embedding of the z-wdt embedded watchdog core.

The embedding follows `src/z_wdt.c` function by function.  The global context
`g_watchdog_ctx` becomes an explicit `watchdog_context` value threaded through
every operation; the monotonic clock `watchdog_get_ticks()` becomes an explicit
`now : Int` argument; the process-terminating `exit(1)` in the sweep becomes the
`ProcessOutcome.fatal` constructor; user callbacks (C function pointers) are
modelled as opaque numeric tokens (`0` playing the role of `NULL`), and the
sweep is parameterised by a semantic interpretation of callback invocation so
that callbacks that re-enter the API (e.g. call `z_wdt_feed` on their own
channel) can be expressed.  Logging is external and ignored.
-/

/-- Capacity of the channel table: `#define WATCHDOG_MAX_CHANNELS 16` in the
header `z_wdt.h` (appended to src/Makefile, line 90). -/
def WATCHDOG_MAX_CHANNELS : Nat := 16

/-- The C `INT64_MAX` sentinel used by the scheduler bookkeeping. -/
def INT64_MAX : Int := 2 ^ 63 - 1

/-- One slot of the channel table (`struct watchdog_channel`).  Pointers
(`user_data`, and the `watchdog_callback_t` function pointer `callback`) are
modelled as numeric tokens with `0 = NULL`. -/
structure watchdog_channel where
  reload_period : Nat
  timeout_abs_ticks : Int
  user_data : Nat
  callback : Nat
  active : Bool
deriving Repr, DecidableEq

/-- The all-zero slot produced by `memset` (and the out-of-range default). -/
def defaultChannel : watchdog_channel :=
  { reload_period := 0, timeout_abs_ticks := 0, user_data := 0, callback := 0, active := false }

/-- Embedding of `struct watchdog_context`: the channel table plus scheduler bookkeeping and
the two flags.  `timer_running` is the monitoring-enabled flag toggled by
suspend/resume. -/
structure watchdog_context where
  channels : List watchdog_channel
  current_ticks : Int
  next_timeout_channel : Int
  next_timeout_ticks : Int
  initialized : Bool
  timer_running : Bool
deriving Repr, DecidableEq

/-- Read `channels[id]` (C array indexing; in-range in every reachable use). -/
def getCh (ctx : watchdog_context) (id : Nat) : watchdog_channel :=
  ctx.channels.getD id defaultChannel

/-- Write `channels[id]`. -/
def setCh (ctx : watchdog_context) (id : Nat) (ch : watchdog_channel) : watchdog_context :=
  { ctx with channels := ctx.channels.set id ch }

/-- Embedding of `watchdog_ms_to_ticks`: the identity conversion (ticks are milliseconds). -/
def watchdog_ms_to_ticks (ms : Nat) : Int := (ms : Int)

/-- One iteration of the scan in `watchdog_get_next_timeout_channel`
(accumulator = `(next_channel, next_timeout)`). -/
def nextTimeoutStep (ctx : watchdog_context) (acc : Int × Int) (id : Nat) : Int × Int :=
  let ch := getCh ctx id
  if ch.active ∧ ch.timeout_abs_ticks < acc.2 then ((id : Int), ch.timeout_abs_ticks) else acc

/-- Embedding of `watchdog_get_next_timeout_channel`: index of the active channel with the
strictly smallest deadline (lowest index wins ties), `-1` if none. -/
def watchdog_get_next_timeout_channel (ctx : watchdog_context) : Int :=
  ((List.range WATCHDOG_MAX_CHANNELS).foldl (nextTimeoutStep ctx) (-1, INT64_MAX)).1

/-- Embedding of `watchdog_schedule_next_timeout`: refresh the `next_timeout_*` bookkeeping. -/
def watchdog_schedule_next_timeout (ctx : watchdog_context) : watchdog_context :=
  let next_channel := watchdog_get_next_timeout_channel ctx
  if next_channel ≥ 0 then
    { ctx with next_timeout_channel := next_channel,
               next_timeout_ticks := (getCh ctx next_channel.toNat).timeout_abs_ticks }
  else
    { ctx with next_timeout_channel := -1, next_timeout_ticks := INT64_MAX }

/-- Embedding of `z_wdt_feed(channel_id)`: validate, then set the slot's absolute timeout to
`now + ms_to_ticks(reload_period)` and reschedule.  Returns `(return code, new
state)`; note the C function takes no mutex. -/
def z_wdt_feed (now : Int) (channel_id : Int) (ctx : watchdog_context) :
    Int × watchdog_context :=
  if ¬ctx.initialized then (-1, ctx)
  else if channel_id < 0 ∨ channel_id ≥ (WATCHDOG_MAX_CHANNELS : Int) then (-1, ctx)
  else
    let id := channel_id.toNat
    let ch := getCh ctx id
    if ¬ch.active then (-1, ctx)
    else
      let ctx1 := setCh ctx id
        { ch with timeout_abs_ticks := now + watchdog_ms_to_ticks ch.reload_period }
      (0, watchdog_schedule_next_timeout ctx1)

/-- The free-slot search loop of `z_wdt_add` (`for (int id = 0; id < ...)`):
`n` counts the slots still to examine starting at index `id`.  On the first
inactive slot it populates the slot (deadline sentinel `INT64_MAX`), marks it
active, feeds it (discarding the return code, as the C code does) and returns
the index. -/
def addLoop (now : Int) (reload_period : Nat) (callback : Nat) (user_data : Nat) :
    Nat → Nat → watchdog_context → Int × watchdog_context
  | 0, _, ctx => (-1, ctx)
  | n + 1, id, ctx =>
    if ¬(getCh ctx id).active then
      let ctx1 := setCh ctx id
        { reload_period := reload_period, timeout_abs_ticks := INT64_MAX,
          user_data := user_data, callback := callback, active := true }
      let ctx2 := (z_wdt_feed now (id : Int) ctx1).2
      ((id : Int), ctx2)
    else addLoop now reload_period callback user_data n (id + 1) ctx

/-- Embedding of `z_wdt_add(reload_period, callback, user_data)`. -/
def z_wdt_add (now : Int) (reload_period : Nat) (callback : Nat) (user_data : Nat)
    (ctx : watchdog_context) : Int × watchdog_context :=
  if ¬ctx.initialized then (-1, ctx)
  else if reload_period = 0 then (-1, ctx)
  else addLoop now reload_period callback user_data WATCHDOG_MAX_CHANNELS 0 ctx

/-- Embedding of `z_wdt_delete(channel_id)`: on an active slot, clear `active`,
`reload_period`, `callback` and `user_data` (the C code does not touch
`timeout_abs_ticks`) and reschedule. -/
def z_wdt_delete (channel_id : Int) (ctx : watchdog_context) :
    Int × watchdog_context :=
  if ¬ctx.initialized then (-1, ctx)
  else if channel_id < 0 ∨ channel_id ≥ (WATCHDOG_MAX_CHANNELS : Int) then (-1, ctx)
  else
    let id := channel_id.toNat
    let ch := getCh ctx id
    if ch.active then
      let ctx1 := setCh ctx id
        { ch with active := false, reload_period := 0, callback := 0, user_data := 0 }
      (0, watchdog_schedule_next_timeout ctx1)
    else (-1, ctx)

/-- Embedding of `z_wdt_suspend`: clear `timer_running`; no-op when uninitialized. -/
def z_wdt_suspend (ctx : watchdog_context) : watchdog_context :=
  if ¬ctx.initialized then ctx else { ctx with timer_running := false }

/-- The per-slot body of the resume loop: every active channel gets a fresh
full deadline `now + ms_to_ticks(reload_period)`. -/
def resumeChannel (now : Int) (ch : watchdog_channel) : watchdog_channel :=
  if ch.active then { ch with timeout_abs_ticks := now + watchdog_ms_to_ticks ch.reload_period }
  else ch

/-- Embedding of `z_wdt_resume`: re-arm every active channel with a full period from `now`,
set `timer_running`, reschedule; no-op when uninitialized. -/
def z_wdt_resume (now : Int) (ctx : watchdog_context) : watchdog_context :=
  if ¬ctx.initialized then ctx
  else
    let ctx1 := { ctx with channels := ctx.channels.map (resumeChannel now) }
    watchdog_schedule_next_timeout { ctx1 with timer_running := true }

/-- The context produced by `z_wdt_init`'s `memset` plus its explicit field
assignments (all-zero table, bookkeeping reset, both flags set). -/
def initCtx : watchdog_context :=
  { channels := List.replicate WATCHDOG_MAX_CHANNELS defaultChannel,
    current_ticks := 0, next_timeout_channel := -1, next_timeout_ticks := INT64_MAX,
    initialized := true, timer_running := true }

/-- Embedding of `z_wdt_init`: when already initialized, return 0 untouched; otherwise reset
the context and set the flags FIRST, and only then consult the OS-layer setup
(`watchdog_os_init`, external, modelled by the boolean `os_init_ok`): on OS
failure the function returns `-1` but the context has already been overwritten. -/
def z_wdt_init (os_init_ok : Bool) (ctx : watchdog_context) :
    Int × watchdog_context :=
  if ctx.initialized then (0, ctx)
  else if ¬os_init_ok then (-1, initCtx)
  else (0, initCtx)

/-- Embedding of `z_wdt_cleanup`: clear `initialized` when set (OS teardown is external). -/
def z_wdt_cleanup (ctx : watchdog_context) : watchdog_context :=
  if ctx.initialized then { ctx with initialized := false } else ctx

/-- Semantic interpretation of invoking a user callback: given the callback
token, the channel id and the `user_data` value passed to it, produce the state
after the callback body ran (a C callback may re-enter the watchdog API). -/
abbrev CbSem := Nat → Nat → Nat → watchdog_context → watchdog_context

/-- Result of one sweep: `ok events ctx` with the list of callback invocations
`(callback, id, user_data)` in firing order, or `fatal id events` when slot
`id` expired with no callback and the C code called `exit(1)` (events already
fired before the exit are retained). -/
inductive ProcessOutcome where
  | ok (events : List (Nat × Nat × Nat)) (ctx : watchdog_context)
  | fatal (id : Nat) (events : List (Nat × Nat × Nat))
deriving Repr, DecidableEq

/-- The events a sweep produced, in either outcome. -/
def ProcessOutcome.events : ProcessOutcome → List (Nat × Nat × Nat)
  | .ok evs _ => evs
  | .fatal _ evs => evs

/-- The state a sweep returned (the default when the process terminated). -/
def ProcessOutcome.stateD (o : ProcessOutcome) (d : watchdog_context) : watchdog_context :=
  match o with
  | .ok _ ctx => ctx
  | .fatal _ _ => d

/-- The timeout-check loop of `z_wdt_process`: `n` slots remain, starting at
index `id`.  An active slot whose deadline has passed fires: with a callback,
the callback is invoked with `(id, user_data)` (recorded as an event and
interpreted by `cb`) and the slot is then deactivated unconditionally; with no
callback the process terminates (`fatal`). -/
def processScan (cb : CbSem) (now : Int) :
    Nat → Nat → watchdog_context → List (Nat × Nat × Nat) → ProcessOutcome
  | 0, _, ctx, evs => .ok evs ctx
  | n + 1, id, ctx, evs =>
    let ch := getCh ctx id
    if ch.active ∧ ch.timeout_abs_ticks ≤ now then
      if ch.callback ≠ 0 then
        let ctx1 := cb ch.callback id ch.user_data ctx
        let ctx2 := setCh ctx1 id { getCh ctx1 id with active := false }
        processScan cb now n (id + 1) ctx2 (evs ++ [(ch.callback, id, ch.user_data)])
      else .fatal id evs
    else processScan cb now n (id + 1) ctx evs

/-- Embedding of `z_wdt_process`, parameterised by the callback semantics: no-op when
uninitialized or suspended; otherwise scan all slots and reschedule. -/
def z_wdt_process_gen (cb : CbSem) (now : Int) (ctx : watchdog_context) : ProcessOutcome :=
  if ¬ctx.initialized ∨ ¬ctx.timer_running then .ok [] ctx
  else
    match processScan cb now WATCHDOG_MAX_CHANNELS 0 ctx [] with
    | .ok evs ctx1 => .ok evs (watchdog_schedule_next_timeout ctx1)
    | .fatal id evs => .fatal id evs

/-- A callback that does not touch the watchdog state (the common case). -/
def pureCb : CbSem := fun _ _ _ ctx => ctx

/-- Specialisation of `z_wdt_process` with state-preserving callbacks. -/
def z_wdt_process (now : Int) (ctx : watchdog_context) : ProcessOutcome :=
  z_wdt_process_gen pureCb now ctx

/-- A callback that calls `z_wdt_feed` on its own channel from inside the
expiry callback (re-entrant use of the API; the C mutex is not recursive but
`z_wdt_feed` takes no lock, so this call proceeds). -/
def selfFeedCb (now : Int) : CbSem := fun _ id _ ctx => (z_wdt_feed now (id : Int) ctx).2

/-- Slot `id` satisfies the sweep's firing test in `ctx` at time `now`. -/
def fireCondition (now : Int) (ctx : watchdog_context) (id : Nat) : Prop :=
  (getCh ctx id).active = true ∧ (getCh ctx id).timeout_abs_ticks ≤ now

instance (now : Int) (ctx : watchdog_context) (id : Nat) :
    Decidable (fireCondition now ctx id) := by
  unfold fireCondition; infer_instance

/-! ### Lock-discipline model

`z_wdt.c` shares its channel table and `timer_running` flag between the
registry operations and the sweep (run by `timer_thread_func` in the OS
layer).  The following traces record, in source order, the mutex operations
and the accesses to that shared state each code path performs; one
`sharedAccess` stands for a contiguous run of reads/writes of the channel
table or the monitoring flag. -/

inductive LockEv where
  | lock
  | unlock
  | sharedAccess
deriving Repr, DecidableEq

/-- Returns `true` iff every `sharedAccess` of the trace happens while the mutex is
held; the boolean argument is the current held state. -/
def heldDuring : List LockEv → Bool → Bool
  | [], _ => true
  | LockEv.lock :: rest, _ => heldDuring rest true
  | LockEv.unlock :: rest, _ => heldDuring rest false
  | LockEv.sharedAccess :: rest, held => held && heldDuring rest held

/-- Every shared-state access of the trace is protected by the mutex. -/
def underLock (t : List LockEv) : Bool := heldDuring t false

/-- Trace of `z_wdt_add` (src/z_wdt.c:71-106): after the `initialized` and
period checks it takes the mutex, scans the table for a free slot and, when
one is found, populates and feeds it; then it unlocks. -/
def addTrace (initialized periodZero foundFree : Bool) : List LockEv :=
  if ¬initialized then []
  else if periodZero then []
  else [LockEv.lock, LockEv.sharedAccess] ++
    (if foundFree then [LockEv.sharedAccess] else []) ++ [LockEv.unlock]

/-- Trace of `z_wdt_delete` (src/z_wdt.c:109-140): after the `initialized`
and range checks it takes the mutex, reads the slot and, when active, clears
it and reschedules; then it unlocks. -/
def deleteTrace (initialized inRange active : Bool) : List LockEv :=
  if ¬initialized then []
  else if ¬inRange then []
  else [LockEv.lock, LockEv.sharedAccess] ++
    (if active then [LockEv.sharedAccess] else []) ++ [LockEv.unlock]

/-- Trace of `z_wdt_feed` (src/z_wdt.c:143-166): after the `initialized` and
range checks it reads `channels[channel_id].active` and, when active, writes
the new deadline and rescans the whole table to reschedule — and it never
touches the mutex. -/
def feedTrace (initialized inRange active : Bool) : List LockEv :=
  if ¬initialized then []
  else if ¬inRange then []
  else [LockEv.sharedAccess] ++ (if active then [LockEv.sharedAccess] else [])

/-- Trace of one sweep iteration as driven by `timer_thread_func`
(src/unnamed/part_001:88-102): the timer thread wraps `z_wdt_process` — which
reads the flags and scans/mutates the table — in lock/unlock. -/
def sweepThreadTrace : List LockEv :=
  [LockEv.lock, LockEv.sharedAccess, LockEv.unlock]

/-! ### Basic lemmas about the table primitives -/

theorem length_setCh (ctx : watchdog_context) (id : Nat) (ch : watchdog_channel) :
    (setCh ctx id ch).channels.length = ctx.channels.length := by
  simp [setCh]

theorem initialized_setCh (ctx : watchdog_context) (id : Nat) (ch : watchdog_channel) :
    (setCh ctx id ch).initialized = ctx.initialized := rfl

theorem timer_running_setCh (ctx : watchdog_context) (id : Nat) (ch : watchdog_channel) :
    (setCh ctx id ch).timer_running = ctx.timer_running := rfl

theorem getCh_setCh_self {ctx : watchdog_context} {id : Nat} (ch : watchdog_channel)
    (h : id < ctx.channels.length) : getCh (setCh ctx id ch) id = ch := by
  simp [getCh, setCh, List.getD, List.getElem?_set_eq_of_lt _ h]

theorem getCh_setCh_ne {id j : Nat} (h : id ≠ j) (ctx : watchdog_context)
    (ch : watchdog_channel) : getCh (setCh ctx id ch) j = getCh ctx j := by
  simp [getCh, setCh, List.getD, List.getElem?_set_ne h]

theorem schedule_channels (ctx : watchdog_context) :
    (watchdog_schedule_next_timeout ctx).channels = ctx.channels := by
  unfold watchdog_schedule_next_timeout
  dsimp only
  split <;> rfl

theorem schedule_initialized (ctx : watchdog_context) :
    (watchdog_schedule_next_timeout ctx).initialized = ctx.initialized := by
  unfold watchdog_schedule_next_timeout
  dsimp only
  split <;> rfl

theorem schedule_timer_running (ctx : watchdog_context) :
    (watchdog_schedule_next_timeout ctx).timer_running = ctx.timer_running := by
  unfold watchdog_schedule_next_timeout
  dsimp only
  split <;> rfl

theorem getCh_schedule (ctx : watchdog_context) (id : Nat) :
    getCh (watchdog_schedule_next_timeout ctx) id = getCh ctx id := by
  simp [getCh, schedule_channels]

/-! ### Characterisation of `z_wdt_feed` -/

theorem z_wdt_feed_not_initialized {ctx : watchdog_context} (now cid : Int)
    (h : ctx.initialized = false) : z_wdt_feed now cid ctx = (-1, ctx) := by
  simp [z_wdt_feed, h]

theorem z_wdt_feed_out_of_range {ctx : watchdog_context} (now : Int) {cid : Int}
    (h : cid < 0 ∨ cid ≥ (WATCHDOG_MAX_CHANNELS : Int)) :
    z_wdt_feed now cid ctx = (-1, ctx) := by
  unfold z_wdt_feed
  by_cases hi : ctx.initialized = true
  · rw [if_neg (by simp [hi]), if_pos h]
  · rw [if_pos (by simpa using hi)]

theorem z_wdt_feed_inactive {ctx : watchdog_context} (now : Int) {cid : Int}
    (h : (getCh ctx cid.toNat).active = false) :
    z_wdt_feed now cid ctx = (-1, ctx) := by
  unfold z_wdt_feed
  by_cases hi : ctx.initialized = true
  · by_cases hr : cid < 0 ∨ cid ≥ (WATCHDOG_MAX_CHANNELS : Int)
    · rw [if_neg (by simp [hi]), if_pos hr]
    · rw [if_neg (by simp [hi]), if_neg hr]
      dsimp only
      rw [if_pos (by simp [h])]
  · rw [if_pos (by simpa using hi)]

theorem z_wdt_feed_active {ctx : watchdog_context} (now : Int) {cid : Int}
    (hinit : ctx.initialized = true) (h0 : 0 ≤ cid)
    (hlt : cid < (WATCHDOG_MAX_CHANNELS : Int))
    (hact : (getCh ctx cid.toNat).active = true) :
    z_wdt_feed now cid ctx =
      (0, watchdog_schedule_next_timeout (setCh ctx cid.toNat
        { getCh ctx cid.toNat with
            timeout_abs_ticks :=
              now + watchdog_ms_to_ticks (getCh ctx cid.toNat).reload_period })) := by
  unfold z_wdt_feed
  rw [if_neg (by simp [hinit]), if_neg (by omega)]
  dsimp only
  rw [if_neg (by simp [hact])]

/-! ### Step equations for `processScan` -/

theorem processScan_step_fire (cb : CbSem) (now : Int) (n id : Nat)
    (ctx : watchdog_context) (evs : List (Nat × Nat × Nat))
    (h1 : (getCh ctx id).active = true)
    (h2 : (getCh ctx id).timeout_abs_ticks ≤ now)
    (h3 : (getCh ctx id).callback ≠ 0) :
    processScan cb now (n + 1) id ctx evs =
      processScan cb now n (id + 1)
        (setCh (cb (getCh ctx id).callback id (getCh ctx id).user_data ctx) id
          { getCh (cb (getCh ctx id).callback id (getCh ctx id).user_data ctx) id with
              active := false })
        (evs ++ [((getCh ctx id).callback, id, (getCh ctx id).user_data)]) := by
  conv_lhs => rw [processScan]
  dsimp only
  rw [if_pos ⟨h1, h2⟩, if_pos h3]

theorem processScan_step_fatal (cb : CbSem) (now : Int) (n id : Nat)
    (ctx : watchdog_context) (evs : List (Nat × Nat × Nat))
    (h1 : (getCh ctx id).active = true)
    (h2 : (getCh ctx id).timeout_abs_ticks ≤ now)
    (h3 : (getCh ctx id).callback = 0) :
    processScan cb now (n + 1) id ctx evs = .fatal id evs := by
  conv_lhs => rw [processScan]
  dsimp only
  rw [if_pos ⟨h1, h2⟩, if_neg (by simp [h3])]

theorem processScan_step_skip (cb : CbSem) (now : Int) (n id : Nat)
    (ctx : watchdog_context) (evs : List (Nat × Nat × Nat))
    (h : ¬((getCh ctx id).active = true ∧ (getCh ctx id).timeout_abs_ticks ≤ now)) :
    processScan cb now (n + 1) id ctx evs = processScan cb now n (id + 1) ctx evs := by
  conv_lhs => rw [processScan]
  dsimp only
  rw [if_neg h]

/-! ### Characterisation of the sweep with state-preserving callbacks -/

theorem processScan_pure_char (now : Int) (n : Nat) :
    ∀ (id : Nat) (ctx : watchdog_context) (evs : List (Nat × Nat × Nat)),
      id + n ≤ ctx.channels.length →
      (∀ j, id ≤ j → j < id + n → fireCondition now ctx j → (getCh ctx j).callback ≠ 0) →
      ∃ evs2 ctx2,
        processScan pureCb now n id ctx evs = .ok (evs ++ evs2) ctx2 ∧
        ctx2.initialized = ctx.initialized ∧
        ctx2.timer_running = ctx.timer_running ∧
        ctx2.channels.length = ctx.channels.length ∧
        (∀ j, getCh ctx2 j =
          if id ≤ j ∧ j < id + n ∧ fireCondition now ctx j then
            { getCh ctx j with active := false }
          else getCh ctx j) ∧
        (∀ j, evs2.filter (fun e => e.2.1 == j) =
          if id ≤ j ∧ j < id + n ∧ fireCondition now ctx j then
            [((getCh ctx j).callback, j, (getCh ctx j).user_data)]
          else []) := by
  induction n with
  | zero =>
    intro id ctx evs _ _
    refine ⟨[], ctx, by simp [processScan], rfl, rfl, rfl, ?_, ?_⟩
    · intro j
      rw [if_neg (by rintro ⟨h1, h2, -⟩; omega)]
    · intro j
      rw [if_neg (by rintro ⟨h1, h2, -⟩; omega)]
      rfl
  | succ n ih =>
    intro id ctx evs hlen hcb
    by_cases hfire : fireCondition now ctx id
    · have hact : (getCh ctx id).active = true := hfire.1
      have hdl : (getCh ctx id).timeout_abs_ticks ≤ now := hfire.2
      have hcb0 : (getCh ctx id).callback ≠ 0 := hcb id (le_refl id) (by omega) hfire
      have hidlen : id < ctx.channels.length := by omega
      set ev : Nat × Nat × Nat := ((getCh ctx id).callback, id, (getCh ctx id).user_data) with hev
      set ctxm : watchdog_context := setCh ctx id { getCh ctx id with active := false } with hctxm
      have hstep : processScan pureCb now (n + 1) id ctx evs =
          processScan pureCb now n (id + 1) ctxm (evs ++ [ev]) := by
        rw [processScan_step_fire pureCb now n id ctx evs hact hdl hcb0]
        rfl
      have hmeq : ∀ j, j ≠ id → getCh ctxm j = getCh ctx j := by
        intro j hj
        exact getCh_setCh_ne (fun h => hj h.symm) ctx _
      have hmfire : ∀ j, j ≠ id → (fireCondition now ctxm j ↔ fireCondition now ctx j) := by
        intro j hj
        unfold fireCondition
        rw [hmeq j hj]
      obtain ⟨evs2, ctx2, heq, hi2, hr2, hl2, hslots, hevents⟩ :=
        ih (id + 1) ctxm (evs ++ [ev])
          (by rw [hctxm, length_setCh]; omega)
          (by
            intro j hj1 hj2 hjf
            rw [hmeq j (by omega)] at *
            exact hcb j (by omega) (by omega) ((hmfire j (by omega)).mp hjf))
      refine ⟨ev :: evs2, ctx2, ?_, ?_, ?_, ?_, ?_, ?_⟩
      · rw [hstep, heq]
        simp
      · rw [hi2, hctxm, initialized_setCh]
      · rw [hr2, hctxm, timer_running_setCh]
      · rw [hl2, hctxm, length_setCh]
      · intro j
        rcases eq_or_ne j id with rfl | hj
        · rw [hslots j, if_neg (by rintro ⟨h1, -, -⟩; omega), hctxm,
            getCh_setCh_self _ hidlen, if_pos ⟨le_refl j, by omega, hfire⟩]
        · rw [hslots j]
          by_cases hc : id ≤ j ∧ j < id + (n + 1) ∧ fireCondition now ctx j
          · rw [if_pos ⟨by omega, by omega, (hmfire j hj).mpr hc.2.2⟩, hmeq j hj, if_pos hc]
          · rw [if_neg (by
                rintro ⟨h1, h2, h3⟩
                exact hc ⟨by omega, by omega, (hmfire j hj).mp h3⟩),
              hmeq j hj, if_neg hc]
      · intro j
        rcases eq_or_ne j id with rfl | hj
        · rw [List.filter_cons]
          rw [if_pos (by simp [hev]), hevents j, if_neg (by rintro ⟨h1, -, -⟩; omega),
            if_pos ⟨le_refl j, by omega, hfire⟩]
        · rw [List.filter_cons, if_neg (by simp [hev, Ne.symm hj]), hevents j]
          by_cases hc : id ≤ j ∧ j < id + (n + 1) ∧ fireCondition now ctx j
          · rw [if_pos ⟨by omega, by omega, (hmfire j hj).mpr hc.2.2⟩, hmeq j hj, if_pos hc]
          · rw [if_neg (by
                rintro ⟨h1, h2, h3⟩
                exact hc ⟨by omega, by omega, (hmfire j hj).mp h3⟩),
              if_neg hc]
    · have hstep : processScan pureCb now (n + 1) id ctx evs =
          processScan pureCb now n (id + 1) ctx evs := by
        apply processScan_step_skip
        intro hc
        exact hfire ⟨hc.1, hc.2⟩
      obtain ⟨evs2, ctx2, heq, hi2, hr2, hl2, hslots, hevents⟩ :=
        ih (id + 1) ctx evs (by omega)
          (fun j hj1 hj2 hjf => hcb j (by omega) (by omega) hjf)
      refine ⟨evs2, ctx2, by rw [hstep, heq], hi2, hr2, hl2, ?_, ?_⟩
      · intro j
        rw [hslots j]
        by_cases hc : id ≤ j ∧ j < id + (n + 1) ∧ fireCondition now ctx j
        · have hj : j ≠ id := by
            rintro rfl
            exact hfire hc.2.2
          rw [if_pos ⟨by omega, by omega, hc.2.2⟩, if_pos hc]
        · rw [if_neg (by rintro ⟨h1, h2, h3⟩; exact hc ⟨by omega, by omega, h3⟩), if_neg hc]
      · intro j
        rw [hevents j]
        by_cases hc : id ≤ j ∧ j < id + (n + 1) ∧ fireCondition now ctx j
        · have hj : j ≠ id := by
            rintro rfl
            exact hfire hc.2.2
          rw [if_pos ⟨by omega, by omega, hc.2.2⟩, if_pos hc]
        · rw [if_neg (by rintro ⟨h1, h2, h3⟩; exact hc ⟨by omega, by omega, h3⟩), if_neg hc]

theorem z_wdt_process_ok_char (now : Int) (ctx : watchdog_context)
    (hinit : ctx.initialized = true) (hrun : ctx.timer_running = true)
    (hlen : ctx.channels.length = WATCHDOG_MAX_CHANNELS)
    (hcb : ∀ j, j < WATCHDOG_MAX_CHANNELS → fireCondition now ctx j →
      (getCh ctx j).callback ≠ 0) :
    ∃ evs ctx2, z_wdt_process now ctx = .ok evs ctx2 ∧
      ctx2.initialized = true ∧ ctx2.timer_running = true ∧
      ctx2.channels.length = WATCHDOG_MAX_CHANNELS ∧
      (∀ j, getCh ctx2 j =
        if j < WATCHDOG_MAX_CHANNELS ∧ fireCondition now ctx j then
          { getCh ctx j with active := false }
        else getCh ctx j) ∧
      (∀ j, evs.filter (fun e => e.2.1 == j) =
        if j < WATCHDOG_MAX_CHANNELS ∧ fireCondition now ctx j then
          [((getCh ctx j).callback, j, (getCh ctx j).user_data)]
        else []) := by
  obtain ⟨evs2, ctx2, heq, hi2, hr2, hl2, hslots, hevents⟩ :=
    processScan_pure_char now WATCHDOG_MAX_CHANNELS 0 ctx [] (by omega)
      (fun j _ hj2 hjf => hcb j (by omega) hjf)
  refine ⟨evs2, watchdog_schedule_next_timeout ctx2, ?_, ?_, ?_, ?_, ?_, ?_⟩
  · unfold z_wdt_process z_wdt_process_gen
    rw [if_neg (by simp [hinit, hrun])]
    rw [show ([] : List (Nat × Nat × Nat)) ++ evs2 = evs2 from rfl] at heq
    rw [heq]
  · rw [schedule_initialized, hi2, hinit]
  · rw [schedule_timer_running, hr2, hrun]
  · rw [schedule_channels, hl2, hlen]
  · intro j
    rw [getCh_schedule, hslots j]
    by_cases hc : j < WATCHDOG_MAX_CHANNELS ∧ fireCondition now ctx j
    · rw [if_pos ⟨by omega, by omega, hc.2⟩, if_pos hc]
    · rw [if_neg (by rintro ⟨-, h2, h3⟩; exact hc ⟨by omega, h3⟩), if_neg hc]
  · intro j
    rw [hevents j]
    by_cases hc : j < WATCHDOG_MAX_CHANNELS ∧ fireCondition now ctx j
    · rw [if_pos ⟨by omega, by omega, hc.2⟩, if_pos hc]
    · rw [if_neg (by rintro ⟨-, h2, h3⟩; exact hc ⟨by omega, h3⟩), if_neg hc]

/-! ### An inactive slot never fires -/

theorem processScan_pure_inactive (now : Int) (i : Nat) (n : Nat) :
    ∀ (id : Nat) (ctx : watchdog_context) (evs : List (Nat × Nat × Nat)),
      (getCh ctx i).active = false →
      (processScan pureCb now n id ctx evs).events.filter (fun e => e.2.1 == i) =
        evs.filter (fun e => e.2.1 == i) := by
  induction n with
  | zero =>
    intro id ctx evs _
    simp [processScan, ProcessOutcome.events]
  | succ n ih =>
    intro id ctx evs hinact
    by_cases hfire : (getCh ctx id).active = true ∧ (getCh ctx id).timeout_abs_ticks ≤ now
    · have hne : id ≠ i := by
        rintro rfl
        rw [hinact] at hfire
        exact Bool.false_ne_true hfire.1
      by_cases hc : (getCh ctx id).callback = 0
      · rw [processScan_step_fatal pureCb now n id ctx evs hfire.1 hfire.2 hc]
        rfl
      · rw [processScan_step_fire pureCb now n id ctx evs hfire.1 hfire.2 hc]
        rw [show pureCb (getCh ctx id).callback id (getCh ctx id).user_data ctx = ctx from rfl]
        rw [ih (id + 1) _ _ (by rw [getCh_setCh_ne hne]; exact hinact)]
        rw [List.filter_append]
        simp [hne]
    · rw [processScan_step_skip pureCb now n id ctx evs hfire]
      exact ih (id + 1) ctx evs hinact

theorem z_wdt_process_inactive (now : Int) (ctx : watchdog_context) (i : Nat)
    (h : (getCh ctx i).active = false) :
    (z_wdt_process now ctx).events.filter (fun e => e.2.1 == i) = [] := by
  unfold z_wdt_process z_wdt_process_gen
  by_cases h1 : ¬ctx.initialized ∨ ¬ctx.timer_running
  · rw [if_pos h1]
    rfl
  · rw [if_neg h1]
    have hscan := processScan_pure_inactive now i WATCHDOG_MAX_CHANNELS 0 ctx [] h
    cases heq : processScan pureCb now WATCHDOG_MAX_CHANNELS 0 ctx [] with
    | ok evs ctx2 =>
      rw [heq] at hscan
      simpa [ProcessOutcome.events] using hscan
    | fatal k evs =>
      rw [heq] at hscan
      simpa [ProcessOutcome.events] using hscan

/-! ### An expired slot without a callback is fatal -/

theorem processScan_pure_fatal (now : Int) (i : Nat) (n : Nat) :
    ∀ (id : Nat) (ctx : watchdog_context) (evs : List (Nat × Nat × Nat)),
      id ≤ i → i < id + n → fireCondition now ctx i → (getCh ctx i).callback = 0 →
      ∃ k evs2, processScan pureCb now n id ctx evs = .fatal k evs2 := by
  induction n with
  | zero =>
    intro id ctx evs h1 h2 _ _
    omega
  | succ n ih =>
    intro id ctx evs h1 h2 hif hic
    by_cases hfire : (getCh ctx id).active = true ∧ (getCh ctx id).timeout_abs_ticks ≤ now
    · by_cases hc : (getCh ctx id).callback = 0
      · exact ⟨id, evs, processScan_step_fatal pureCb now n id ctx evs hfire.1 hfire.2 hc⟩
      · have hne : id ≠ i := by
          rintro rfl
          exact hc hic
        rw [processScan_step_fire pureCb now n id ctx evs hfire.1 hfire.2 hc]
        rw [show pureCb (getCh ctx id).callback id (getCh ctx id).user_data ctx = ctx from rfl]
        refine ih (id + 1) _ _ (by omega) (by omega) ?_ ?_
        · unfold fireCondition
          rw [getCh_setCh_ne hne]
          exact hif
        · rw [getCh_setCh_ne hne]
          exact hic
    · have hne : id ≠ i := by
        rintro rfl
        exact hfire ⟨hif.1, hif.2⟩
      rw [processScan_step_skip pureCb now n id ctx evs hfire]
      exact ih (id + 1) ctx evs (by omega) (by omega) hif hic

/-! ### Characterisation of `z_wdt_delete` -/

theorem z_wdt_delete_not_initialized {ctx : watchdog_context} (cid : Int)
    (h : ctx.initialized = false) : z_wdt_delete cid ctx = (-1, ctx) := by
  simp [z_wdt_delete, h]

theorem z_wdt_delete_out_of_range {ctx : watchdog_context} {cid : Int}
    (h : cid < 0 ∨ cid ≥ (WATCHDOG_MAX_CHANNELS : Int)) :
    z_wdt_delete cid ctx = (-1, ctx) := by
  unfold z_wdt_delete
  by_cases hi : ctx.initialized = true
  · rw [if_neg (by simp [hi]), if_pos h]
  · rw [if_pos (by simpa using hi)]

theorem z_wdt_delete_inactive {ctx : watchdog_context} {cid : Int}
    (h : (getCh ctx cid.toNat).active = false) :
    z_wdt_delete cid ctx = (-1, ctx) := by
  unfold z_wdt_delete
  by_cases hi : ctx.initialized = true
  · by_cases hr : cid < 0 ∨ cid ≥ (WATCHDOG_MAX_CHANNELS : Int)
    · rw [if_neg (by simp [hi]), if_pos hr]
    · rw [if_neg (by simp [hi]), if_neg hr]
      dsimp only
      rw [if_neg (by simp [h])]
  · rw [if_pos (by simpa using hi)]

theorem z_wdt_delete_active {ctx : watchdog_context} {cid : Int}
    (hinit : ctx.initialized = true) (h0 : 0 ≤ cid)
    (hlt : cid < (WATCHDOG_MAX_CHANNELS : Int))
    (hact : (getCh ctx cid.toNat).active = true) :
    z_wdt_delete cid ctx =
      (0, watchdog_schedule_next_timeout (setCh ctx cid.toNat
        { getCh ctx cid.toNat with
            active := false, reload_period := 0, callback := 0, user_data := 0 })) := by
  unfold z_wdt_delete
  rw [if_neg (by simp [hinit]), if_neg (by omega)]
  dsimp only
  rw [if_pos hact]

example :
    (z_wdt_add 5 100 7 9 initCtx).1 = 0 ∧
      getCh (z_wdt_add 5 100 7 9 initCtx).2 0 =
        { reload_period := 100, timeout_abs_ticks := 105, user_data := 9,
          callback := 7, active := true } := by decide

example :
    (z_wdt_feed 50 0 (z_wdt_add 5 100 7 9 initCtx).2).1 = 0 ∧
      getCh (z_wdt_feed 50 0 (z_wdt_add 5 100 7 9 initCtx).2).2 0 =
        { reload_period := 100, timeout_abs_ticks := 150, user_data := 9,
          callback := 7, active := true } := by decide

example :
    z_wdt_process 200 (z_wdt_add 5 100 7 9 initCtx).2 =
      .ok [(7, 0, 9)] (watchdog_schedule_next_timeout
        (setCh (z_wdt_add 5 100 7 9 initCtx).2 0
          { reload_period := 100, timeout_abs_ticks := 105, user_data := 9,
            callback := 7, active := false })) := by decide

example :
    (z_wdt_process 200 (z_wdt_add 5 100 0 9 initCtx).2) = .fatal 0 [] := by decide

/-! ### Claim theorems -/

/-- C1: an active channel with a registered callback whose deadline has passed
is fired by the sweep exactly once — the sweep invokes its callback with
`(id, user_data)`, leaves the slot inactive, and no sweep on any state in which
the slot is inactive ever produces an event for it again (one-shot expiry, no
re-arming).  The sweep is assumed not to hit the fatal no-callback path on some
other channel (otherwise the process would have been terminated). -/
theorem wdt_expiry_oneshot (now : Int) (ctx : watchdog_context) (i : Nat)
    (hlen : ctx.channels.length = WATCHDOG_MAX_CHANNELS)
    (hinit : ctx.initialized = true) (hrun : ctx.timer_running = true)
    (hi : i < WATCHDOG_MAX_CHANNELS)
    (hact : (getCh ctx i).active = true)
    (hcb : (getCh ctx i).callback ≠ 0)
    (hdl : (getCh ctx i).timeout_abs_ticks ≤ now)
    (hnofatal : ∀ j, j < WATCHDOG_MAX_CHANNELS → fireCondition now ctx j →
      (getCh ctx j).callback ≠ 0) :
    ∃ evs ctx2, z_wdt_process now ctx = .ok evs ctx2 ∧
      evs.filter (fun e => e.2.1 == i) =
        [((getCh ctx i).callback, i, (getCh ctx i).user_data)] ∧
      (getCh ctx2 i).active = false ∧
      (∀ (now2 : Int) (ctx3 : watchdog_context), (getCh ctx3 i).active = false →
        (z_wdt_process now2 ctx3).events.filter (fun e => e.2.1 == i) = []) := by
  obtain ⟨evs, ctx2, heq, -, -, -, hslots, hevents⟩ :=
    z_wdt_process_ok_char now ctx hinit hrun hlen hnofatal
  refine ⟨evs, ctx2, heq, ?_, ?_, ?_⟩
  · rw [hevents i, if_pos ⟨hi, hact, hdl⟩]
  · rw [hslots i, if_pos ⟨hi, hact, hdl⟩]
  · intro now2 ctx3 h3
    exact z_wdt_process_inactive now2 ctx3 i h3

/-- C2: on an initialized context, feeding an active channel always succeeds
and resets that channel's absolute deadline to `now + period` (the channel's
configured reload period), leaving the slot's other fields unchanged,
regardless of how much of the previous period remained. -/
theorem wdt_feed_resets_deadline (now cid : Int) (ctx : watchdog_context)
    (hlen : ctx.channels.length = WATCHDOG_MAX_CHANNELS)
    (hinit : ctx.initialized = true) (h0 : 0 ≤ cid)
    (hlt : cid < (WATCHDOG_MAX_CHANNELS : Int))
    (hact : (getCh ctx cid.toNat).active = true) :
    (z_wdt_feed now cid ctx).1 = 0 ∧
      getCh (z_wdt_feed now cid ctx).2 cid.toNat =
        { getCh ctx cid.toNat with
            timeout_abs_ticks := now + ((getCh ctx cid.toNat).reload_period : Int) } := by
  rw [z_wdt_feed_active now hinit h0 hlt hact]
  refine ⟨rfl, ?_⟩
  rw [getCh_schedule, getCh_setCh_self _ (by omega)]
  rfl

/-- C3 counterexample: deactivation does NOT clear all slot fields.  In the
concrete run below, deleting channel 0 leaves its stale absolute deadline (105)
in the slot, and a sweep-driven expiry leaves period, user_data, callback and
deadline all in place, clearing only the `active` flag — contradicting the
claim that every deactivation resets callback, user_data, period and deadline. -/
theorem wdt_deactivation_stale_data_counterexample :
    (z_wdt_delete 0 (z_wdt_add 5 100 7 9 initCtx).2).1 = 0 ∧
      getCh (z_wdt_delete 0 (z_wdt_add 5 100 7 9 initCtx).2).2 0 =
        { reload_period := 0, timeout_abs_ticks := 105, user_data := 0,
          callback := 0, active := false } ∧
      (getCh (z_wdt_delete 0 (z_wdt_add 5 100 7 9 initCtx).2).2 0).timeout_abs_ticks ≠ 0 ∧
      getCh ((z_wdt_process 200 (z_wdt_add 5 100 7 9 initCtx).2).stateD initCtx) 0 =
        { reload_period := 100, timeout_abs_ticks := 105, user_data := 9,
          callback := 7, active := false } ∧
      (getCh ((z_wdt_process 200 (z_wdt_add 5 100 7 9 initCtx).2).stateD initCtx) 0).callback ≠ 0 := by
  decide

/-- C3 amended: what deactivation actually clears.  A successful delete clears
`reload_period`, `callback` and `user_data` but leaves `timeout_abs_ticks`
(the deadline) untouched; a sweep-driven expiry clears nothing but the
`active` flag — the expired slot keeps its period, deadline, callback and
user_data. -/
theorem wdt_deactivation_fields_amended (ctx : watchdog_context)
    (hlen : ctx.channels.length = WATCHDOG_MAX_CHANNELS) :
    (∀ cid : Int, ctx.initialized = true → 0 ≤ cid →
      cid < (WATCHDOG_MAX_CHANNELS : Int) → (getCh ctx cid.toNat).active = true →
      (z_wdt_delete cid ctx).1 = 0 ∧
        getCh (z_wdt_delete cid ctx).2 cid.toNat =
          { reload_period := 0,
            timeout_abs_ticks := (getCh ctx cid.toNat).timeout_abs_ticks,
            user_data := 0, callback := 0, active := false }) ∧
    (∀ (now : Int) (i : Nat), ctx.initialized = true → ctx.timer_running = true →
      i < WATCHDOG_MAX_CHANNELS → fireCondition now ctx i →
      (∀ j, j < WATCHDOG_MAX_CHANNELS → fireCondition now ctx j →
        (getCh ctx j).callback ≠ 0) →
      ∃ evs ctx2, z_wdt_process now ctx = .ok evs ctx2 ∧
        getCh ctx2 i = { getCh ctx i with active := false }) := by
  constructor
  · intro cid hinit h0 hlt hact
    rw [z_wdt_delete_active hinit h0 hlt hact]
    refine ⟨rfl, ?_⟩
    rw [getCh_schedule, getCh_setCh_self _ (by omega)]
  · intro now i hinit hrun hi hif hnofatal
    obtain ⟨evs, ctx2, heq, -, -, -, hslots, -⟩ :=
      z_wdt_process_ok_char now ctx hinit hrun hlen hnofatal
    refine ⟨evs, ctx2, heq, ?_⟩
    rw [hslots i, if_pos ⟨hi, hif⟩]

/-- C7: if the sweep reaches an expired active channel that has no registered
callback, the outcome is `fatal` — the owning process is terminated
immediately; the core offers no recovery path. -/
theorem wdt_expiry_without_callback_fatal (now : Int) (ctx : watchdog_context)
    (i : Nat) (hinit : ctx.initialized = true) (hrun : ctx.timer_running = true)
    (hi : i < WATCHDOG_MAX_CHANNELS)
    (hact : (getCh ctx i).active = true)
    (hdl : (getCh ctx i).timeout_abs_ticks ≤ now)
    (hcb0 : (getCh ctx i).callback = 0) :
    ∃ k evs, z_wdt_process now ctx = .fatal k evs := by
  obtain ⟨k, evs2, h⟩ :=
    processScan_pure_fatal now i WATCHDOG_MAX_CHANNELS 0 ctx [] (by omega) (by omega)
      ⟨hact, hdl⟩ hcb0
  refine ⟨k, evs2, ?_⟩
  unfold z_wdt_process z_wdt_process_gen
  rw [if_neg (by simp [hinit, hrun]), h]

/-! ### Characterisation of `z_wdt_add` -/

theorem addLoop_step_free (now : Int) (p cb ud : Nat) (n id : Nat)
    (ctx : watchdog_context) (h : (getCh ctx id).active = false) :
    addLoop now p cb ud (n + 1) id ctx =
      ((id : Int), (z_wdt_feed now (id : Int)
        (setCh ctx id
          { reload_period := p, timeout_abs_ticks := INT64_MAX,
            user_data := ud, callback := cb, active := true })).2) := by
  conv_lhs => rw [addLoop]
  dsimp only
  rw [if_pos (by simp [h])]

theorem addLoop_step_busy (now : Int) (p cb ud : Nat) (n id : Nat)
    (ctx : watchdog_context) (h : (getCh ctx id).active = true) :
    addLoop now p cb ud (n + 1) id ctx = addLoop now p cb ud n (id + 1) ctx := by
  conv_lhs => rw [addLoop]
  dsimp only
  rw [if_neg (by simp [h])]

theorem addLoop_found (now : Int) (p cb ud : Nat) (n : Nat) :
    ∀ (id : Nat) (ctx : watchdog_context),
      ctx.channels.length = WATCHDOG_MAX_CHANNELS →
      ctx.initialized = true →
      id + n = WATCHDOG_MAX_CHANNELS →
      (∃ i, id ≤ i ∧ i < WATCHDOG_MAX_CHANNELS ∧ (getCh ctx i).active = false) →
      ∃ i, id ≤ i ∧ i < WATCHDOG_MAX_CHANNELS ∧ (getCh ctx i).active = false ∧
        (∀ j, id ≤ j → j < i → (getCh ctx j).active = true) ∧
        (addLoop now p cb ud n id ctx).1 = (i : Int) ∧
        getCh (addLoop now p cb ud n id ctx).2 i =
          { reload_period := p, timeout_abs_ticks := now + (p : Int),
            user_data := ud, callback := cb, active := true } := by
  induction n with
  | zero =>
    intro id ctx _ _ hn hex
    obtain ⟨i, h1, h2, -⟩ := hex
    omega
  | succ n ih =>
    intro id ctx hlen hinit hn hex
    by_cases hA : (getCh ctx id).active = true
    · obtain ⟨i, hi1, hi2, hi3⟩ := hex
      have hine : i ≠ id := by
        rintro rfl
        rw [hA] at hi3
        simp at hi3
      obtain ⟨i', h1, h2, h3, h4, h5, h6⟩ :=
        ih (id + 1) ctx hlen hinit (by omega) ⟨i, by omega, hi2, hi3⟩
      rw [addLoop_step_busy now p cb ud n id ctx hA]
      refine ⟨i', by omega, h2, h3, ?_, h5, h6⟩
      intro j hj1 hj2
      rcases eq_or_ne j id with rfl | hj
      · exact hA
      · exact h4 j (by omega) hj2
    · have hfree : (getCh ctx id).active = false := by
        simpa using hA
      rw [addLoop_step_free now p cb ud n id ctx hfree]
      have hidlen : id < ctx.channels.length := by omega
      have hslot : getCh (setCh ctx id
          { reload_period := p, timeout_abs_ticks := INT64_MAX,
            user_data := ud, callback := cb, active := true }) id =
          { reload_period := p, timeout_abs_ticks := INT64_MAX,
            user_data := ud, callback := cb, active := true } :=
        getCh_setCh_self _ hidlen
      have hfeed := @z_wdt_feed_active
        (setCh ctx id
          { reload_period := p, timeout_abs_ticks := INT64_MAX,
            user_data := ud, callback := cb, active := true })
        now ((id : Int)) (by rw [initialized_setCh]; exact hinit)
        (by omega) (by omega) (by simp [hslot])
      refine ⟨id, le_refl id, by omega, hfree, by omega, rfl, ?_⟩
      rw [hfeed]
      dsimp only
      rw [getCh_schedule]
      rw [show ((id : Int)).toNat = id from by omega]
      rw [getCh_setCh_self _ (by rw [length_setCh]; omega)]
      rw [hslot]
      simp [watchdog_ms_to_ticks]

theorem addLoop_fst_eq_neg_one_iff (now : Int) (p cb ud : Nat) (n : Nat) :
    ∀ (id : Nat) (ctx : watchdog_context),
      ((addLoop now p cb ud n id ctx).1 = -1 ↔
        ∀ j, id ≤ j → j < id + n → (getCh ctx j).active = true) := by
  induction n with
  | zero =>
    intro id ctx
    exact iff_of_true rfl (fun j h1 h2 => by omega)
  | succ n ih =>
    intro id ctx
    by_cases hA : (getCh ctx id).active = true
    · rw [addLoop_step_busy now p cb ud n id ctx hA, ih (id + 1) ctx]
      constructor
      · intro h j hj1 hj2
        rcases eq_or_ne j id with rfl | hj
        · exact hA
        · exact h j (by omega) (by omega)
      · intro h j hj1 hj2
        exact h j (by omega) (by omega)
    · have hfree : (getCh ctx id).active = false := by simpa using hA
      rw [addLoop_step_free now p cb ud n id ctx hfree]
      refine iff_of_false (by omega) ?_
      intro h
      rw [h id (le_refl id) (by omega)] at hfree
      simp at hfree

theorem addLoop_fst_eq_neg_one_snd (now : Int) (p cb ud : Nat) (n : Nat) :
    ∀ (id : Nat) (ctx : watchdog_context),
      (addLoop now p cb ud n id ctx).1 = -1 → (addLoop now p cb ud n id ctx).2 = ctx := by
  induction n with
  | zero =>
    intro id ctx _
    rfl
  | succ n ih =>
    intro id ctx h
    by_cases hA : (getCh ctx id).active = true
    · rw [addLoop_step_busy now p cb ud n id ctx hA] at h ⊢
      exact ih (id + 1) ctx h
    · have hfree : (getCh ctx id).active = false := by simpa using hA
      rw [addLoop_step_free now p cb ud n id ctx hfree] at h
      exact absurd h (by omega)

/-! ### Outcome case lemmas for feed and delete -/

theorem z_wdt_feed_cases (now cid : Int) (ctx : watchdog_context) :
    z_wdt_feed now cid ctx = (-1, ctx) ∨ (z_wdt_feed now cid ctx).1 = 0 := by
  by_cases hi : ctx.initialized = true
  · by_cases hr : cid < 0 ∨ cid ≥ (WATCHDOG_MAX_CHANNELS : Int)
    · exact Or.inl (z_wdt_feed_out_of_range now hr)
    · by_cases ha : (getCh ctx cid.toNat).active = true
      · right
        rw [z_wdt_feed_active now hi (by omega) (by omega) ha]
      · exact Or.inl (z_wdt_feed_inactive now (by simpa using ha))
  · exact Or.inl (z_wdt_feed_not_initialized now cid (by simpa using hi))

theorem z_wdt_delete_cases (cid : Int) (ctx : watchdog_context) :
    z_wdt_delete cid ctx = (-1, ctx) ∨ (z_wdt_delete cid ctx).1 = 0 := by
  by_cases hi : ctx.initialized = true
  · by_cases hr : cid < 0 ∨ cid ≥ (WATCHDOG_MAX_CHANNELS : Int)
    · exact Or.inl (z_wdt_delete_out_of_range hr)
    · by_cases ha : (getCh ctx cid.toNat).active = true
      · right
        rw [z_wdt_delete_active hi (by omega) (by omega) ha]
      · exact Or.inl (z_wdt_delete_inactive (by simpa using ha))
  · exact Or.inl (z_wdt_delete_not_initialized cid (by simpa using hi))

/-- C4: on an initialized context with a nonzero period and at least one free
slot, `add` picks the lowest-index inactive slot, populates it with the given
period, callback and user_data, arms its deadline to `now + period` (as if fed
now), marks it active and returns that index, a value in `[0, capacity)`. -/
theorem wdt_add_populates_lowest_free_slot (now : Int) (p cb ud : Nat)
    (ctx : watchdog_context)
    (hlen : ctx.channels.length = WATCHDOG_MAX_CHANNELS)
    (hinit : ctx.initialized = true) (hp : p ≠ 0)
    (hfree : ∃ i, i < WATCHDOG_MAX_CHANNELS ∧ (getCh ctx i).active = false) :
    ∃ i, i < WATCHDOG_MAX_CHANNELS ∧ (getCh ctx i).active = false ∧
      (∀ j, j < i → (getCh ctx j).active = true) ∧
      (z_wdt_add now p cb ud ctx).1 = (i : Int) ∧
      getCh (z_wdt_add now p cb ud ctx).2 i =
        { reload_period := p, timeout_abs_ticks := now + (p : Int),
          user_data := ud, callback := cb, active := true } := by
  obtain ⟨i, hfi, hfa⟩ := hfree
  have hadd : z_wdt_add now p cb ud ctx =
      addLoop now p cb ud WATCHDOG_MAX_CHANNELS 0 ctx := by
    unfold z_wdt_add
    rw [if_neg (by simp [hinit]), if_neg (by simp [hp])]
  obtain ⟨i', -, h2, h3, h4, h5, h6⟩ :=
    addLoop_found now p cb ud WATCHDOG_MAX_CHANNELS 0 ctx hlen hinit (by omega)
      ⟨i, by omega, hfi, hfa⟩
  refine ⟨i', h2, h3, ?_, ?_, ?_⟩
  · intro j hj
    exact h4 j (by omega) hj
  · rw [hadd]
    exact h5
  · rw [hadd]
    exact h6

/-- C5: exact error conditions.  `add` fails (returns -1) iff the context is
uninitialized, the period is 0, or every slot is active (capacity exhausted,
so in particular the (capacity+1)-th simultaneous add fails); `delete` and
`feed` fail iff the context is uninitialized, the id is outside
`[0, capacity)`, or the slot is inactive; and after any successful delete a
further `add` (with a valid period) succeeds. -/
theorem wdt_error_conditions_iff (now : Int) (p cb ud : Nat) (cid : Int)
    (ctx : watchdog_context)
    (hlen : ctx.channels.length = WATCHDOG_MAX_CHANNELS) :
    ((z_wdt_add now p cb ud ctx).1 = -1 ↔
      (ctx.initialized = false ∨ p = 0 ∨
        ∀ j, j < WATCHDOG_MAX_CHANNELS → (getCh ctx j).active = true)) ∧
    ((z_wdt_delete cid ctx).1 = -1 ↔
      (ctx.initialized = false ∨ cid < 0 ∨ cid ≥ (WATCHDOG_MAX_CHANNELS : Int) ∨
        (getCh ctx cid.toNat).active = false)) ∧
    ((z_wdt_feed now cid ctx).1 = -1 ↔
      (ctx.initialized = false ∨ cid < 0 ∨ cid ≥ (WATCHDOG_MAX_CHANNELS : Int) ∨
        (getCh ctx cid.toNat).active = false)) ∧
    ((z_wdt_delete cid ctx).1 = 0 → p ≠ 0 →
      (z_wdt_add now p cb ud (z_wdt_delete cid ctx).2).1 ≠ -1) := by
  refine ⟨?_, ?_, ?_, ?_⟩
  · by_cases hi : ctx.initialized = true
    · by_cases hp : p = 0
      · refine iff_of_true ?_ (Or.inr (Or.inl hp))
        unfold z_wdt_add
        rw [if_neg (by simp [hi]), if_pos hp]
      · have hadd : z_wdt_add now p cb ud ctx =
            addLoop now p cb ud WATCHDOG_MAX_CHANNELS 0 ctx := by
          unfold z_wdt_add
          rw [if_neg (by simp [hi]), if_neg (by simp [hp])]
        rw [hadd, addLoop_fst_eq_neg_one_iff]
        constructor
        · intro h
          exact Or.inr (Or.inr (fun j hj => h j (by omega) (by omega)))
        · rintro (h | h | h)
          · rw [hi] at h
            simp at h
          · exact absurd h hp
          · intro j _ hj2
            exact h j (by omega)
    · have hF : ctx.initialized = false := by simpa using hi
      refine iff_of_true ?_ (Or.inl hF)
      unfold z_wdt_add
      rw [if_pos (by simp [hF])]
  · by_cases hi : ctx.initialized = true
    · by_cases hr : cid < 0 ∨ cid ≥ (WATCHDOG_MAX_CHANNELS : Int)
      · rw [z_wdt_delete_out_of_range hr]
        refine iff_of_true rfl ?_
        rcases hr with h | h
        · exact Or.inr (Or.inl h)
        · exact Or.inr (Or.inr (Or.inl h))
      · by_cases ha : (getCh ctx cid.toNat).active = true
        · rw [z_wdt_delete_active hi (by omega) (by omega) ha]
          refine iff_of_false (by omega) ?_
          rintro (h | h | h | h)
          · rw [hi] at h
            simp at h
          · omega
          · omega
          · rw [ha] at h
            simp at h
        · have ha2 : (getCh ctx cid.toNat).active = false := by simpa using ha
          rw [z_wdt_delete_inactive ha2]
          exact iff_of_true rfl (Or.inr (Or.inr (Or.inr ha2)))
    · have hF : ctx.initialized = false := by simpa using hi
      rw [z_wdt_delete_not_initialized cid hF]
      exact iff_of_true rfl (Or.inl hF)
  · by_cases hi : ctx.initialized = true
    · by_cases hr : cid < 0 ∨ cid ≥ (WATCHDOG_MAX_CHANNELS : Int)
      · rw [z_wdt_feed_out_of_range now hr]
        refine iff_of_true rfl ?_
        rcases hr with h | h
        · exact Or.inr (Or.inl h)
        · exact Or.inr (Or.inr (Or.inl h))
      · by_cases ha : (getCh ctx cid.toNat).active = true
        · rw [z_wdt_feed_active now hi (by omega) (by omega) ha]
          refine iff_of_false (by omega) ?_
          rintro (h | h | h | h)
          · rw [hi] at h
            simp at h
          · omega
          · omega
          · rw [ha] at h
            simp at h
        · have ha2 : (getCh ctx cid.toNat).active = false := by simpa using ha
          rw [z_wdt_feed_inactive now ha2]
          exact iff_of_true rfl (Or.inr (Or.inr (Or.inr ha2)))
    · have hF : ctx.initialized = false := by simpa using hi
      rw [z_wdt_feed_not_initialized now cid hF]
      exact iff_of_true rfl (Or.inl hF)
  · intro hdel hp
    by_cases hi : ctx.initialized = true
    · by_cases hr : cid < 0 ∨ cid ≥ (WATCHDOG_MAX_CHANNELS : Int)
      · rw [z_wdt_delete_out_of_range hr] at hdel
        exact absurd hdel (by omega)
      · by_cases ha : (getCh ctx cid.toNat).active = true
        · rw [z_wdt_delete_active hi (by omega) (by omega) ha]
          set ctx2 := watchdog_schedule_next_timeout (setCh ctx cid.toNat
            { getCh ctx cid.toNat with
                active := false, reload_period := 0, callback := 0, user_data := 0 }) with hctx2
          have hi2 : ctx2.initialized = true := by
            rw [hctx2, schedule_initialized, initialized_setCh]
            exact hi
          have hslot2 : (getCh ctx2 cid.toNat).active = false := by
            rw [hctx2, getCh_schedule, getCh_setCh_self _ (by omega)]
          have hadd : z_wdt_add now p cb ud ctx2 =
              addLoop now p cb ud WATCHDOG_MAX_CHANNELS 0 ctx2 := by
            unfold z_wdt_add
            rw [if_neg (by simp [hi2]), if_neg (by simp [hp])]
          rw [hadd, Ne, addLoop_fst_eq_neg_one_iff]
          intro hall
          rw [hall cid.toNat (by omega) (by omega)] at hslot2
          simp at hslot2
        · have ha2 : (getCh ctx cid.toNat).active = false := by simpa using ha
          rw [z_wdt_delete_inactive ha2] at hdel
          exact absurd hdel (by omega)
    · have hF : ctx.initialized = false := by simpa using hi
      rw [z_wdt_delete_not_initialized cid hF] at hdel
      exact absurd hdel (by omega)

/-- C8 counterexample: the claim that EVERY error path mutates nothing fails
for `z_wdt_init`: when the OS-layer setup step fails, `init` returns -1 but the
context has already been wiped by `memset` and both flags set — in particular
`initialized` is left `true` on this error path. -/
theorem wdt_init_os_failure_mutates_counterexample :
    (z_wdt_init false
      { channels := [], current_ticks := 0, next_timeout_channel := 0,
        next_timeout_ticks := 0, initialized := false, timer_running := false }).1 = -1 ∧
    (z_wdt_init false
      { channels := [], current_ticks := 0, next_timeout_channel := 0,
        next_timeout_ticks := 0, initialized := false, timer_running := false }).2 ≠
      { channels := [], current_ticks := 0, next_timeout_channel := 0,
        next_timeout_ticks := 0, initialized := false, timer_running := false } ∧
    (z_wdt_init false
      { channels := [], current_ticks := 0, next_timeout_channel := 0,
        next_timeout_ticks := 0, initialized := false, timer_running := false }).2.initialized =
      true := by
  decide

/-- C8 amended: every error return of `add`, `delete` and `feed` leaves the
context completely unchanged; `init`, however, does NOT obey this on its
OS-setup error path — when `watchdog_os_init` fails on an uninitialized
context, `init` returns -1 having already reset the whole context with the
`initialized` and `timer_running` flags set. -/
theorem wdt_error_paths_preserve_state_amended (ctx : watchdog_context) :
    (∀ (now : Int) (p cb ud : Nat), (z_wdt_add now p cb ud ctx).1 = -1 →
      (z_wdt_add now p cb ud ctx).2 = ctx) ∧
    (∀ cid : Int, (z_wdt_delete cid ctx).1 = -1 → (z_wdt_delete cid ctx).2 = ctx) ∧
    (∀ (now cid : Int), (z_wdt_feed now cid ctx).1 = -1 → (z_wdt_feed now cid ctx).2 = ctx) ∧
    (ctx.initialized = false → z_wdt_init false ctx = (-1, initCtx)) := by
  refine ⟨?_, ?_, ?_, ?_⟩
  · intro now p cb ud h
    by_cases hi : ctx.initialized = true
    · by_cases hp : p = 0
      · unfold z_wdt_add
        rw [if_neg (by simp [hi]), if_pos hp]
      · have hadd : z_wdt_add now p cb ud ctx =
            addLoop now p cb ud WATCHDOG_MAX_CHANNELS 0 ctx := by
          unfold z_wdt_add
          rw [if_neg (by simp [hi]), if_neg (by simp [hp])]
        rw [hadd]
        rw [hadd] at h
        exact addLoop_fst_eq_neg_one_snd now p cb ud WATCHDOG_MAX_CHANNELS 0 ctx h
    · unfold z_wdt_add
      rw [if_pos (by simpa using hi)]
  · intro cid h
    rcases z_wdt_delete_cases cid ctx with hc | hc
    · rw [hc]
    · rw [hc] at h
      exact absurd h (by omega)
  · intro now cid h
    rcases z_wdt_feed_cases now cid ctx with hc | hc
    · rw [hc]
    · rw [hc] at h
      exact absurd h (by omega)
  · intro hF
    unfold z_wdt_init
    rw [if_neg (by simp [hF])]
    rfl

/-! ### Suspend / resume -/

theorem getD_map_resume (now : Int) (l : List watchdog_channel) (i : Nat)
    (h : i < l.length) :
    (l.map (resumeChannel now)).getD i defaultChannel =
      resumeChannel now (l.getD i defaultChannel) := by
  simp [List.getD, List.getElem?_map, List.getElem?_eq_getElem h]

/-- C6: `suspend` only clears the monitoring flag (every other field of the
context, including every channel slot, is untouched), and while suspended the
sweep is a strict no-op — no callback fires no matter how much time elapsed.
`resume` gives every active channel a full fresh period measured from the
resume instant (`deadline = now + period`, not the remaining time), leaves
inactive slots alone, and re-enables monitoring.  Both are no-ops on an
uninitialized context. -/
theorem wdt_suspend_resume (ctx : watchdog_context) (now : Int)
    (hlen : ctx.channels.length = WATCHDOG_MAX_CHANNELS) :
    (ctx.initialized = true →
      z_wdt_suspend ctx = { ctx with timer_running := false } ∧
      (∀ now2 : Int, z_wdt_process now2 (z_wdt_suspend ctx) = .ok [] (z_wdt_suspend ctx)) ∧
      (z_wdt_resume now ctx).initialized = true ∧
      (z_wdt_resume now ctx).timer_running = true ∧
      (∀ i, i < WATCHDOG_MAX_CHANNELS →
        ((getCh ctx i).active = true →
          getCh (z_wdt_resume now ctx) i =
            { getCh ctx i with
                timeout_abs_ticks := now + ((getCh ctx i).reload_period : Int) }) ∧
        ((getCh ctx i).active = false →
          getCh (z_wdt_resume now ctx) i = getCh ctx i))) ∧
    (ctx.initialized = false →
      z_wdt_suspend ctx = ctx ∧ z_wdt_resume now ctx = ctx) := by
  constructor
  · intro hinit
    have hsusp : z_wdt_suspend ctx = { ctx with timer_running := false } := by
      unfold z_wdt_suspend
      rw [if_neg (by simp [hinit])]
    have hres : z_wdt_resume now ctx =
        watchdog_schedule_next_timeout
          { ctx with channels := ctx.channels.map (resumeChannel now),
                     timer_running := true } := by
      unfold z_wdt_resume
      rw [if_neg (by simp [hinit])]
    refine ⟨hsusp, ?_, ?_, ?_, ?_⟩
    · intro now2
      rw [hsusp]
      unfold z_wdt_process z_wdt_process_gen
      rw [if_pos (Or.inr (by simp))]
    · rw [hres, schedule_initialized]
      exact hinit
    · rw [hres, schedule_timer_running]
    · intro i hi
      have hgi : getCh (z_wdt_resume now ctx) i = resumeChannel now (getCh ctx i) := by
        rw [hres, getCh_schedule]
        show (ctx.channels.map (resumeChannel now)).getD i defaultChannel =
          resumeChannel now (ctx.channels.getD i defaultChannel)
        exact getD_map_resume now ctx.channels i (by omega)
      constructor
      · intro hact
        rw [hgi]
        unfold resumeChannel
        rw [if_pos (by simp [hact])]
        rfl
      · intro hinact
        rw [hgi]
        unfold resumeChannel
        rw [if_neg (by simp [hinact])]
  · intro hF
    constructor
    · unfold z_wdt_suspend
      rw [if_pos (by simp [hF])]
    · unfold z_wdt_resume
      rw [if_pos (by simp [hF])]

/-! ### Lock discipline -/

/-- C9 evaluation: on every reachable branch, `add` and `delete` perform all
their shared-state accesses holding the mutex, and the sweep runs under the
mutex taken by the timer thread — but `z_wdt_feed` on its success path (and on
its inactive-slot path) accesses the channel table with the mutex NOT held,
refuting the claim that all three registry operations are mutually exclusive
with the sweep via the shared lock. -/
theorem wdt_lock_discipline :
    underLock (addTrace true false true) = true ∧
    underLock (addTrace true false false) = true ∧
    underLock (deleteTrace true true true) = true ∧
    underLock (deleteTrace true true false) = true ∧
    underLock sweepThreadTrace = true ∧
    underLock (feedTrace true true true) = false ∧
    underLock (feedTrace true true false) = false := by
  decide

/-! ### The sweep with callbacks that feed their own channel -/

theorem z_wdt_feed_active_nat {ctx : watchdog_context} (now : Int) {i : Nat}
    (hinit : ctx.initialized = true) (hi : i < WATCHDOG_MAX_CHANNELS)
    (hact : (getCh ctx i).active = true) :
    z_wdt_feed now (i : Int) ctx =
      (0, watchdog_schedule_next_timeout (setCh ctx i
        { getCh ctx i with
            timeout_abs_ticks :=
              now + watchdog_ms_to_ticks (getCh ctx i).reload_period })) := by
  have htn : ((i : Int)).toNat = i := by omega
  have h := @z_wdt_feed_active ctx now ((i : Int)) hinit (by omega)
    (by omega) (by rw [htn]; exact hact)
  rw [htn] at h
  exact h

theorem processScan_selfFeed_char (now : Int) (n : Nat) :
    ∀ (id : Nat) (ctx : watchdog_context) (evs : List (Nat × Nat × Nat)),
      ctx.channels.length = WATCHDOG_MAX_CHANNELS →
      ctx.initialized = true →
      id + n ≤ WATCHDOG_MAX_CHANNELS →
      (∀ j, id ≤ j → j < id + n → fireCondition now ctx j → (getCh ctx j).callback ≠ 0) →
      ∃ evs2 ctx2,
        processScan (selfFeedCb now) now n id ctx evs = .ok (evs ++ evs2) ctx2 ∧
        ctx2.initialized = true ∧
        ctx2.timer_running = ctx.timer_running ∧
        ctx2.channels.length = WATCHDOG_MAX_CHANNELS ∧
        (∀ j, getCh ctx2 j =
          if id ≤ j ∧ j < id + n ∧ fireCondition now ctx j then
            { getCh ctx j with
                timeout_abs_ticks :=
                  now + watchdog_ms_to_ticks (getCh ctx j).reload_period,
                active := false }
          else getCh ctx j) ∧
        (∀ j, evs2.filter (fun e => e.2.1 == j) =
          if id ≤ j ∧ j < id + n ∧ fireCondition now ctx j then
            [((getCh ctx j).callback, j, (getCh ctx j).user_data)]
          else []) := by
  induction n with
  | zero =>
    intro id ctx evs hlen hinit _ _
    refine ⟨[], ctx, by simp [processScan], hinit, rfl, hlen, ?_, ?_⟩
    · intro j
      rw [if_neg (by rintro ⟨h1, h2, -⟩; omega)]
    · intro j
      rw [if_neg (by rintro ⟨h1, h2, -⟩; omega)]
      rfl
  | succ n ih =>
    intro id ctx evs hlen hinit hn hcb
    by_cases hfire : fireCondition now ctx id
    · have hact : (getCh ctx id).active = true := hfire.1
      have hdl : (getCh ctx id).timeout_abs_ticks ≤ now := hfire.2
      have hcb0 : (getCh ctx id).callback ≠ 0 := hcb id (le_refl id) (by omega) hfire
      have hid16 : id < WATCHDOG_MAX_CHANNELS := by omega
      have hidlen : id < ctx.channels.length := by omega
      set ev : Nat × Nat × Nat := ((getCh ctx id).callback, id, (getCh ctx id).user_data)
        with hev
      set X : watchdog_channel :=
        { getCh ctx id with
            timeout_abs_ticks := now + watchdog_ms_to_ticks (getCh ctx id).reload_period }
        with hX
      set ctxf : watchdog_context := watchdog_schedule_next_timeout (setCh ctx id X)
        with hctxf
      have hcbst : selfFeedCb now (getCh ctx id).callback id (getCh ctx id).user_data ctx =
          ctxf := by
        show (z_wdt_feed now (id : Int) ctx).2 = ctxf
        rw [z_wdt_feed_active_nat now hinit hid16 hact]
      have hflen : ctxf.channels.length = ctx.channels.length := by
        rw [hctxf, schedule_channels, length_setCh]
      have hgf : getCh ctxf id = X := by
        rw [hctxf, getCh_schedule, getCh_setCh_self _ hidlen]
      set ctxm : watchdog_context := setCh ctxf id { X with active := false } with hctxm
      have hstep : processScan (selfFeedCb now) now (n + 1) id ctx evs =
          processScan (selfFeedCb now) now n (id + 1) ctxm (evs ++ [ev]) := by
        rw [processScan_step_fire (selfFeedCb now) now n id ctx evs hact hdl hcb0]
        rw [hcbst, hgf]
      have hmid : getCh ctxm id = { X with active := false } := by
        rw [hctxm]
        exact getCh_setCh_self _ (by omega)
      have hmeq : ∀ j, j ≠ id → getCh ctxm j = getCh ctx j := by
        intro j hj
        rw [hctxm, getCh_setCh_ne (fun h => hj h.symm), hctxf, getCh_schedule,
          getCh_setCh_ne (fun h => hj h.symm)]
      have hmfire : ∀ j, j ≠ id → (fireCondition now ctxm j ↔ fireCondition now ctx j) := by
        intro j hj
        unfold fireCondition
        rw [hmeq j hj]
      have hmlen : ctxm.channels.length = WATCHDOG_MAX_CHANNELS := by
        rw [hctxm, length_setCh, hflen, hlen]
      have hminit : ctxm.initialized = true := by
        rw [hctxm, initialized_setCh, hctxf, schedule_initialized, initialized_setCh]
        exact hinit
      have hmrun : ctxm.timer_running = ctx.timer_running := by
        rw [hctxm, timer_running_setCh, hctxf, schedule_timer_running, timer_running_setCh]
      obtain ⟨evs2, ctx2, heq, hi2, hr2, hl2, hslots, hevents⟩ :=
        ih (id + 1) ctxm (evs ++ [ev]) hmlen hminit (by omega)
          (by
            intro j hj1 hj2 hjf
            rw [hmeq j (by omega)]
            exact hcb j (by omega) (by omega) ((hmfire j (by omega)).mp hjf))
      refine ⟨ev :: evs2, ctx2, ?_, hi2, ?_, hl2, ?_, ?_⟩
      · rw [hstep, heq]
        simp
      · rw [hr2, hmrun]
      · intro j
        rcases eq_or_ne j id with rfl | hj
        · rw [hslots j, if_neg (by rintro ⟨h1, -, -⟩; omega), hmid,
            if_pos ⟨le_refl j, by omega, hfire⟩]
        · rw [hslots j]
          by_cases hc : id ≤ j ∧ j < id + (n + 1) ∧ fireCondition now ctx j
          · rw [if_pos ⟨by omega, by omega, (hmfire j hj).mpr hc.2.2⟩, hmeq j hj, if_pos hc]
          · rw [if_neg (by
                rintro ⟨h1, h2, h3⟩
                exact hc ⟨by omega, by omega, (hmfire j hj).mp h3⟩),
              hmeq j hj, if_neg hc]
      · intro j
        rcases eq_or_ne j id with rfl | hj
        · rw [List.filter_cons]
          rw [if_pos (by simp [hev]), hevents j, if_neg (by rintro ⟨h1, -, -⟩; omega),
            if_pos ⟨le_refl j, by omega, hfire⟩]
        · rw [List.filter_cons, if_neg (by simp [hev, Ne.symm hj]), hevents j]
          by_cases hc : id ≤ j ∧ j < id + (n + 1) ∧ fireCondition now ctx j
          · rw [if_pos ⟨by omega, by omega, (hmfire j hj).mpr hc.2.2⟩, hmeq j hj, if_pos hc]
          · rw [if_neg (by
                rintro ⟨h1, h2, h3⟩
                exact hc ⟨by omega, by omega, (hmfire j hj).mp h3⟩),
              if_neg hc]
    · have hstep : processScan (selfFeedCb now) now (n + 1) id ctx evs =
          processScan (selfFeedCb now) now n (id + 1) ctx evs := by
        apply processScan_step_skip
        intro hcontra
        exact hfire ⟨hcontra.1, hcontra.2⟩
      obtain ⟨evs2, ctx2, heq, hi2, hr2, hl2, hslots, hevents⟩ :=
        ih (id + 1) ctx evs hlen hinit (by omega)
          (fun j hj1 hj2 hjf => hcb j (by omega) (by omega) hjf)
      refine ⟨evs2, ctx2, by rw [hstep, heq], hi2, hr2, hl2, ?_, ?_⟩
      · intro j
        rw [hslots j]
        by_cases hc : id ≤ j ∧ j < id + (n + 1) ∧ fireCondition now ctx j
        · have hj : j ≠ id := by
            rintro rfl
            exact hfire hc.2.2
          rw [if_pos ⟨by omega, by omega, hc.2.2⟩, if_pos hc]
        · rw [if_neg (by rintro ⟨h1, h2, h3⟩; exact hc ⟨by omega, by omega, h3⟩), if_neg hc]
      · intro j
        rw [hevents j]
        by_cases hc : id ≤ j ∧ j < id + (n + 1) ∧ fireCondition now ctx j
        · have hj : j ≠ id := by
            rintro rfl
            exact hfire hc.2.2
          rw [if_pos ⟨by omega, by omega, hc.2.2⟩, if_pos hc]
        · rw [if_neg (by rintro ⟨h1, h2, h3⟩; exact hc ⟨by omega, by omega, h3⟩), if_neg hc]

/-- C10: deactivation follows the callback unconditionally.  Even when every
expiry callback re-enters the API and calls `z_wdt_feed` on its own channel —
a call that succeeds, since the slot is still marked active while the callback
runs (last conjunct) — every channel that was active with `deadline ≤ now` at
entry ends the sweep deactivated; the successful in-callback feed is visible
only in the refreshed (but now irrelevant) deadline.  An expiry cannot be
canceled from inside its own callback. -/
theorem wdt_selffeed_cannot_cancel_expiry (now : Int) (ctx : watchdog_context)
    (hlen : ctx.channels.length = WATCHDOG_MAX_CHANNELS)
    (hinit : ctx.initialized = true) (hrun : ctx.timer_running = true)
    (hnofatal : ∀ j, j < WATCHDOG_MAX_CHANNELS → fireCondition now ctx j →
      (getCh ctx j).callback ≠ 0) :
    ∃ evs ctx2, z_wdt_process_gen (selfFeedCb now) now ctx = .ok evs ctx2 ∧
      (∀ i, i < WATCHDOG_MAX_CHANNELS → fireCondition now ctx i →
        getCh ctx2 i =
          { getCh ctx i with
              timeout_abs_ticks := now + ((getCh ctx i).reload_period : Int),
              active := false }) ∧
      (∀ (i : Nat) (σ : watchdog_context), i < WATCHDOG_MAX_CHANNELS →
        σ.initialized = true → (getCh σ i).active = true →
        (z_wdt_feed now (i : Int) σ).1 = 0) := by
  obtain ⟨evs2, ctx2, heq, -, -, -, hslots, -⟩ :=
    processScan_selfFeed_char now WATCHDOG_MAX_CHANNELS 0 ctx [] hlen hinit (by omega)
      (fun j _ hj2 hjf => hnofatal j (by omega) hjf)
  refine ⟨evs2, watchdog_schedule_next_timeout ctx2, ?_, ?_, ?_⟩
  · unfold z_wdt_process_gen
    rw [if_neg (by simp [hinit, hrun])]
    rw [show ([] : List (Nat × Nat × Nat)) ++ evs2 = evs2 from rfl] at heq
    rw [heq]
  · intro i hi hif
    rw [getCh_schedule, hslots i, if_pos ⟨by omega, by omega, hif⟩]
    rfl
  · intro i σ hi hσinit hσact
    rw [z_wdt_feed_active_nat now hσinit hi hσact]

/-! ### Witnesses: each hypothesis-bearing claim theorem applied at a concrete
run.  `(z_wdt_add 5 100 7 9 initCtx).2` is the context obtained by
initializing and adding one channel (period 100, callback token 7, user_data
token 9) at time 5, so channel 0 is active with deadline 105. -/

theorem wdt_expiry_oneshot_witness :
    ((z_wdt_add 5 100 7 9 initCtx).2.channels.length = WATCHDOG_MAX_CHANNELS ∧
      (z_wdt_add 5 100 7 9 initCtx).2.initialized = true ∧
      (z_wdt_add 5 100 7 9 initCtx).2.timer_running = true ∧
      0 < WATCHDOG_MAX_CHANNELS ∧
      (getCh (z_wdt_add 5 100 7 9 initCtx).2 0).active = true ∧
      (getCh (z_wdt_add 5 100 7 9 initCtx).2 0).callback ≠ 0 ∧
      (getCh (z_wdt_add 5 100 7 9 initCtx).2 0).timeout_abs_ticks ≤ 200 ∧
      (∀ j, j < WATCHDOG_MAX_CHANNELS →
        fireCondition 200 (z_wdt_add 5 100 7 9 initCtx).2 j →
        (getCh (z_wdt_add 5 100 7 9 initCtx).2 j).callback ≠ 0)) ∧
    (∃ evs ctx2, z_wdt_process 200 (z_wdt_add 5 100 7 9 initCtx).2 = .ok evs ctx2 ∧
      evs.filter (fun e => e.2.1 == 0) =
        [((getCh (z_wdt_add 5 100 7 9 initCtx).2 0).callback, 0,
          (getCh (z_wdt_add 5 100 7 9 initCtx).2 0).user_data)] ∧
      (getCh ctx2 0).active = false ∧
      (∀ (now2 : Int) (ctx3 : watchdog_context), (getCh ctx3 0).active = false →
        (z_wdt_process now2 ctx3).events.filter (fun e => e.2.1 == 0) = [])) :=
  ⟨⟨by decide, by decide, by decide, by decide, by decide, by decide, by decide, by decide⟩,
    wdt_expiry_oneshot 200 (z_wdt_add 5 100 7 9 initCtx).2 0 (by decide) (by decide)
      (by decide) (by decide) (by decide) (by decide) (by decide) (by decide)⟩

theorem wdt_feed_resets_deadline_witness :
    ((z_wdt_add 5 100 7 9 initCtx).2.channels.length = WATCHDOG_MAX_CHANNELS ∧
      (z_wdt_add 5 100 7 9 initCtx).2.initialized = true ∧
      (0 : Int) ≤ 0 ∧ (0 : Int) < (WATCHDOG_MAX_CHANNELS : Int) ∧
      (getCh (z_wdt_add 5 100 7 9 initCtx).2 (0 : Int).toNat).active = true) ∧
    ((z_wdt_feed 50 0 (z_wdt_add 5 100 7 9 initCtx).2).1 = 0 ∧
      getCh (z_wdt_feed 50 0 (z_wdt_add 5 100 7 9 initCtx).2).2 (0 : Int).toNat =
        { getCh (z_wdt_add 5 100 7 9 initCtx).2 (0 : Int).toNat with
            timeout_abs_ticks :=
              50 + ((getCh (z_wdt_add 5 100 7 9 initCtx).2 (0 : Int).toNat).reload_period :
                Int) }) :=
  ⟨⟨by decide, by decide, by decide, by decide, by decide⟩,
    wdt_feed_resets_deadline 50 0 (z_wdt_add 5 100 7 9 initCtx).2 (by decide) (by decide)
      (by decide) (by decide) (by decide)⟩

theorem wdt_deactivation_fields_amended_witness :
    ((z_wdt_add 5 100 7 9 initCtx).2.channels.length = WATCHDOG_MAX_CHANNELS) ∧
    ((∀ cid : Int, (z_wdt_add 5 100 7 9 initCtx).2.initialized = true → 0 ≤ cid →
      cid < (WATCHDOG_MAX_CHANNELS : Int) →
      (getCh (z_wdt_add 5 100 7 9 initCtx).2 cid.toNat).active = true →
      (z_wdt_delete cid (z_wdt_add 5 100 7 9 initCtx).2).1 = 0 ∧
        getCh (z_wdt_delete cid (z_wdt_add 5 100 7 9 initCtx).2).2 cid.toNat =
          { reload_period := 0,
            timeout_abs_ticks :=
              (getCh (z_wdt_add 5 100 7 9 initCtx).2 cid.toNat).timeout_abs_ticks,
            user_data := 0, callback := 0, active := false }) ∧
    (∀ (now : Int) (i : Nat), (z_wdt_add 5 100 7 9 initCtx).2.initialized = true →
      (z_wdt_add 5 100 7 9 initCtx).2.timer_running = true →
      i < WATCHDOG_MAX_CHANNELS → fireCondition now (z_wdt_add 5 100 7 9 initCtx).2 i →
      (∀ j, j < WATCHDOG_MAX_CHANNELS →
        fireCondition now (z_wdt_add 5 100 7 9 initCtx).2 j →
        (getCh (z_wdt_add 5 100 7 9 initCtx).2 j).callback ≠ 0) →
      ∃ evs ctx2, z_wdt_process now (z_wdt_add 5 100 7 9 initCtx).2 = .ok evs ctx2 ∧
        getCh ctx2 i = { getCh (z_wdt_add 5 100 7 9 initCtx).2 i with active := false })) :=
  ⟨by decide, wdt_deactivation_fields_amended (z_wdt_add 5 100 7 9 initCtx).2 (by decide)⟩

theorem wdt_add_populates_lowest_free_slot_witness :
    (initCtx.channels.length = WATCHDOG_MAX_CHANNELS ∧
      initCtx.initialized = true ∧ (100 : Nat) ≠ 0 ∧
      (∃ i, i < WATCHDOG_MAX_CHANNELS ∧ (getCh initCtx i).active = false)) ∧
    (∃ i, i < WATCHDOG_MAX_CHANNELS ∧ (getCh initCtx i).active = false ∧
      (∀ j, j < i → (getCh initCtx j).active = true) ∧
      (z_wdt_add 5 100 7 9 initCtx).1 = (i : Int) ∧
      getCh (z_wdt_add 5 100 7 9 initCtx).2 i =
        { reload_period := 100, timeout_abs_ticks := 5 + (100 : Int),
          user_data := 9, callback := 7, active := true }) :=
  ⟨⟨by decide, by decide, by decide, ⟨0, by decide, by decide⟩⟩,
    wdt_add_populates_lowest_free_slot 5 100 7 9 initCtx (by decide) (by decide)
      (by decide) ⟨0, by decide, by decide⟩⟩

theorem wdt_error_conditions_iff_witness :
    ((z_wdt_add 5 100 7 9 initCtx).2.channels.length = WATCHDOG_MAX_CHANNELS) ∧
    (((z_wdt_add 60 100 7 9 (z_wdt_add 5 100 7 9 initCtx).2).1 = -1 ↔
      ((z_wdt_add 5 100 7 9 initCtx).2.initialized = false ∨ (100 : Nat) = 0 ∨
        ∀ j, j < WATCHDOG_MAX_CHANNELS →
          (getCh (z_wdt_add 5 100 7 9 initCtx).2 j).active = true)) ∧
    ((z_wdt_delete 0 (z_wdt_add 5 100 7 9 initCtx).2).1 = -1 ↔
      ((z_wdt_add 5 100 7 9 initCtx).2.initialized = false ∨ (0 : Int) < 0 ∨
        (0 : Int) ≥ (WATCHDOG_MAX_CHANNELS : Int) ∨
        (getCh (z_wdt_add 5 100 7 9 initCtx).2 (0 : Int).toNat).active = false)) ∧
    ((z_wdt_feed 60 0 (z_wdt_add 5 100 7 9 initCtx).2).1 = -1 ↔
      ((z_wdt_add 5 100 7 9 initCtx).2.initialized = false ∨ (0 : Int) < 0 ∨
        (0 : Int) ≥ (WATCHDOG_MAX_CHANNELS : Int) ∨
        (getCh (z_wdt_add 5 100 7 9 initCtx).2 (0 : Int).toNat).active = false)) ∧
    ((z_wdt_delete 0 (z_wdt_add 5 100 7 9 initCtx).2).1 = 0 → (100 : Nat) ≠ 0 →
      (z_wdt_add 60 100 7 9 (z_wdt_delete 0 (z_wdt_add 5 100 7 9 initCtx).2).2).1 ≠ -1)) :=
  ⟨by decide, wdt_error_conditions_iff 60 100 7 9 0 (z_wdt_add 5 100 7 9 initCtx).2 (by decide)⟩

theorem wdt_suspend_resume_witness :
    ((z_wdt_add 5 100 7 9 initCtx).2.channels.length = WATCHDOG_MAX_CHANNELS) ∧
    (((z_wdt_add 5 100 7 9 initCtx).2.initialized = true →
      z_wdt_suspend (z_wdt_add 5 100 7 9 initCtx).2 =
        { (z_wdt_add 5 100 7 9 initCtx).2 with timer_running := false } ∧
      (∀ now2 : Int, z_wdt_process now2 (z_wdt_suspend (z_wdt_add 5 100 7 9 initCtx).2) =
        .ok [] (z_wdt_suspend (z_wdt_add 5 100 7 9 initCtx).2)) ∧
      (z_wdt_resume 500 (z_wdt_add 5 100 7 9 initCtx).2).initialized = true ∧
      (z_wdt_resume 500 (z_wdt_add 5 100 7 9 initCtx).2).timer_running = true ∧
      (∀ i, i < WATCHDOG_MAX_CHANNELS →
        ((getCh (z_wdt_add 5 100 7 9 initCtx).2 i).active = true →
          getCh (z_wdt_resume 500 (z_wdt_add 5 100 7 9 initCtx).2) i =
            { getCh (z_wdt_add 5 100 7 9 initCtx).2 i with
                timeout_abs_ticks :=
                  500 + ((getCh (z_wdt_add 5 100 7 9 initCtx).2 i).reload_period : Int) }) ∧
        ((getCh (z_wdt_add 5 100 7 9 initCtx).2 i).active = false →
          getCh (z_wdt_resume 500 (z_wdt_add 5 100 7 9 initCtx).2) i =
            getCh (z_wdt_add 5 100 7 9 initCtx).2 i))) ∧
    ((z_wdt_add 5 100 7 9 initCtx).2.initialized = false →
      z_wdt_suspend (z_wdt_add 5 100 7 9 initCtx).2 = (z_wdt_add 5 100 7 9 initCtx).2 ∧
      z_wdt_resume 500 (z_wdt_add 5 100 7 9 initCtx).2 = (z_wdt_add 5 100 7 9 initCtx).2)) :=
  ⟨by decide, wdt_suspend_resume (z_wdt_add 5 100 7 9 initCtx).2 500 (by decide)⟩

theorem wdt_expiry_without_callback_fatal_witness :
    ((z_wdt_add 5 100 0 9 initCtx).2.initialized = true ∧
      (z_wdt_add 5 100 0 9 initCtx).2.timer_running = true ∧
      0 < WATCHDOG_MAX_CHANNELS ∧
      (getCh (z_wdt_add 5 100 0 9 initCtx).2 0).active = true ∧
      (getCh (z_wdt_add 5 100 0 9 initCtx).2 0).timeout_abs_ticks ≤ 200 ∧
      (getCh (z_wdt_add 5 100 0 9 initCtx).2 0).callback = 0) ∧
    (∃ k evs, z_wdt_process 200 (z_wdt_add 5 100 0 9 initCtx).2 = .fatal k evs) :=
  ⟨⟨by decide, by decide, by decide, by decide, by decide, by decide⟩,
    wdt_expiry_without_callback_fatal 200 (z_wdt_add 5 100 0 9 initCtx).2 0 (by decide)
      (by decide) (by decide) (by decide) (by decide) (by decide)⟩

theorem wdt_error_paths_preserve_state_amended_witness :
    (∀ (now : Int) (p cb ud : Nat),
      (z_wdt_add now p cb ud (z_wdt_add 5 100 7 9 initCtx).2).1 = -1 →
      (z_wdt_add now p cb ud (z_wdt_add 5 100 7 9 initCtx).2).2 =
        (z_wdt_add 5 100 7 9 initCtx).2) ∧
    (∀ cid : Int, (z_wdt_delete cid (z_wdt_add 5 100 7 9 initCtx).2).1 = -1 →
      (z_wdt_delete cid (z_wdt_add 5 100 7 9 initCtx).2).2 =
        (z_wdt_add 5 100 7 9 initCtx).2) ∧
    (∀ (now cid : Int), (z_wdt_feed now cid (z_wdt_add 5 100 7 9 initCtx).2).1 = -1 →
      (z_wdt_feed now cid (z_wdt_add 5 100 7 9 initCtx).2).2 =
        (z_wdt_add 5 100 7 9 initCtx).2) ∧
    ((z_wdt_add 5 100 7 9 initCtx).2.initialized = false →
      z_wdt_init false (z_wdt_add 5 100 7 9 initCtx).2 = (-1, initCtx)) :=
  wdt_error_paths_preserve_state_amended (z_wdt_add 5 100 7 9 initCtx).2

theorem wdt_selffeed_cannot_cancel_expiry_witness :
    ((z_wdt_add 5 100 7 9 initCtx).2.channels.length = WATCHDOG_MAX_CHANNELS ∧
      (z_wdt_add 5 100 7 9 initCtx).2.initialized = true ∧
      (z_wdt_add 5 100 7 9 initCtx).2.timer_running = true ∧
      (∀ j, j < WATCHDOG_MAX_CHANNELS →
        fireCondition 200 (z_wdt_add 5 100 7 9 initCtx).2 j →
        (getCh (z_wdt_add 5 100 7 9 initCtx).2 j).callback ≠ 0)) ∧
    (∃ evs ctx2,
      z_wdt_process_gen (selfFeedCb 200) 200 (z_wdt_add 5 100 7 9 initCtx).2 =
        .ok evs ctx2 ∧
      (∀ i, i < WATCHDOG_MAX_CHANNELS →
        fireCondition 200 (z_wdt_add 5 100 7 9 initCtx).2 i →
        getCh ctx2 i =
          { getCh (z_wdt_add 5 100 7 9 initCtx).2 i with
              timeout_abs_ticks :=
                200 + ((getCh (z_wdt_add 5 100 7 9 initCtx).2 i).reload_period : Int),
              active := false }) ∧
      (∀ (i : Nat) (σ : watchdog_context), i < WATCHDOG_MAX_CHANNELS →
        σ.initialized = true → (getCh σ i).active = true →
        (z_wdt_feed 200 (i : Int) σ).1 = 0)) :=
  ⟨⟨by decide, by decide, by decide, by decide⟩,
    wdt_selffeed_cannot_cancel_expiry 200 (z_wdt_add 5 100 7 9 initCtx).2 (by decide)
      (by decide) (by decide) (by decide)⟩
